import Mathlib

/-!
Verification of the shipment status-transition and webhook-notification
engine of the `shipment_integration` repository, as a shallow embedding of
`src/shipments/models.py`, `src/shipments/services.py`,
`src/shipments/signals.py` and `src/shipments/views.py`.

Machine-level conventions of the embedding:
* Python strings are Lean `String`; database rows are Lean structures
  carrying the fields that the modelled operations read or write (purely
  data-carrying columns such as addresses, weights and timestamps are not
  read by any modelled operation and are omitted).
* Python runtime exceptions (AttributeError, FieldError, TypeError) are
  values of `PyErr`; code that can raise passes the error out explicitly.
* External collaborators (the `requests` HTTP client, `hashlib`/`hmac`,
  `datetime.utcnow`, the random tracking-number generator) are supplied by
  an `Env` record of functions, exactly where the source calls into them.
-/

namespace ShipSpec

/-- Lifecycle states of a shipment: `Shipment.STATUS_CHOICES`
(models.py lines 86-94) and, identically, the choices of
`ShipmentStatusUpdateSerializer` (serializers.py lines 431-437). -/
inductive Status where
  | created
  | picked_up
  | in_transit
  | out_for_delivery
  | delivered
  | cancelled
  | returned
deriving DecidableEq, Repr

/-- The database string stored for each status (models.py lines 86-94). -/
def Status.toDb : Status → String
  | .created => "created"
  | .picked_up => "picked_up"
  | .in_transit => "in_transit"
  | .out_for_delivery => "out_for_delivery"
  | .delivered => "delivered"
  | .cancelled => "cancelled"
  | .returned => "returned"

/-- A Shipment row (models.py lines 84-171). `company` is the owning
tenant (a Company id), `carrier` the optionally assigned carrier user id.
Columns never read by the modelled operations (addresses, package
dimensions, service type, cost, label, timestamps) are omitted. -/
structure Shipment where
  id : Nat
  company : Nat
  carrier : Option Nat
  tracking_number : String
  reference_number : String
  status : Status
deriving DecidableEq, Repr

/-- The attribute names a Shipment instance actually has, per the field
declarations of models.py lines 84-171 (plus the implicit primary key).
Python attribute access on any name outside this list raises
AttributeError. -/
def shipmentPyAttrNames : List String :=
  ["id", "company", "carrier", "tracking_number", "reference_number",
   "sender_address", "receiver_address", "weight", "length", "width",
   "height", "content_description", "service_type", "estimated_cost",
   "estimated_delivery_date", "status", "label_url", "created_at",
   "updated_at"]

/-- A TrackingEvent row (models.py lines 174-195). `shipment` is the
parent shipment id; `created_by` the optional acting user id. -/
structure TrackingEvent where
  shipment : Nat
  status : Status
  description : Option String
  location : Option String
  created_by : Option Nat
deriving DecidableEq, Repr

/-- A Webhook subscription row (models.py lines 203-237): owned by a
Company (`company`), with a destination `url`, signing `secret` and an
`is_active` flag. -/
structure Webhook where
  id : Nat
  company : Nat
  url : String
  secret : String
  is_active : Bool
deriving DecidableEq, Repr

/-- The queryable field names of the Webhook model, per models.py lines
209-223 (plus the implicit primary key). A Django `filter(...)` keyword
naming any other field raises FieldError. -/
def webhookPyFieldNames : List String :=
  ["id", "company", "url", "secret", "is_active", "created_at", "updated_at"]

/-- Python runtime exceptions surfaced by the modelled code. -/
inductive PyErr where
  | attributeError (msg : String)
  | fieldError (msg : String)
  | typeError (msg : String)
deriving DecidableEq, Repr

/-- Python attribute access `obj.<name>` against the declared attribute
names of the class of `obj`: AttributeError when the name is not among
them. -/
def djangoGetattr (attrs : List String) (name : String) : Except PyErr Unit :=
  if attrs.contains name then Except.ok ()
  else Except.error (PyErr.attributeError ("object has no attribute " ++ name))

/-- Django `Model.objects.filter(k1=..., k2=..., ...)` resolves every
keyword against the declared model fields eagerly; the first keyword that
is not a field raises FieldError. -/
def djangoFilterFields (fields : List String) (kws : List String) : Except PyErr Unit :=
  match kws.find? (fun n => !(fields.contains n)) with
  | some n => Except.error (PyErr.fieldError ("cannot resolve keyword " ++ n ++ " into field"))
  | none => Except.ok ()

/-- Python keyword-argument binding of a call `f(k1=..., ..., kn=...)`
against the parameter names of the definition of `f`: the first keyword
that is not a parameter raises TypeError before the body of `f` runs. -/
def bindKwargs (params : List String) (kwargs : List String) : Except PyErr Unit :=
  match kwargs.find? (fun k => !(params.contains k)) with
  | some k => Except.error (PyErr.typeError ("got an unexpected keyword argument " ++ k))
  | none => Except.ok ()

/-- Outcome of one `requests.post` call, as distinguished by the handlers
in services.py lines 67-84: a response with a status code, a
`requests.exceptions.Timeout`, or another `requests.exceptions.RequestException`. -/
inductive PostResult where
  | response (statusCode : Nat)
  | timeoutErr
  | requestErr (msg : String)
deriving DecidableEq, Repr

/-- One outbound HTTP POST as the source assembles it (services.py lines
57-72): destination URL, serialized body, header list in insertion order,
and the fixed timeout in seconds. -/
structure HttpRequest where
  url : String
  body : String
  headers : List (String × String)
  timeoutSeconds : Nat
deriving DecidableEq, Repr

/-- External collaborators of the modelled code, supplied as functions:
`hmacSha256Hex secret payload` is `hmac.new(secret, payload, sha256).hexdigest()`
(services.py lines 17-21), `utcnowIso` is `datetime.utcnow().isoformat()`
(services.py line 49), `post` is `requests.post` (services.py line 67) and
`randomTrackingNumber` the generator of models.py lines 165-168. -/
structure Env where
  hmacSha256Hex : String → String → String
  utcnowIso : String
  post : HttpRequest → PostResult
  randomTrackingNumber : String

/-- generate_webhook_signature (services.py lines 15-21): the hex HMAC-SHA256
digest of the payload keyed by the secret, both UTF-8 encoded. -/
def generate_webhook_signature (env : Env) (secret payload : String) : String :=
  env.hmacSha256Hex secret payload

/-- The webhook payload dictionary in insertion order (services.py lines
43-50). `str(shipment.id)` is `toString`; the timestamp is
`datetime.utcnow().isoformat() + "Z"`. -/
def buildPayload (env : Env) (shipment : Shipment) (event : String) : List (String × String) :=
  [("event", event),
   ("tracking_number", shipment.tracking_number),
   ("new_status", shipment.status.toDb),
   ("reference_number", shipment.reference_number),
   ("shipment_id", toString shipment.id),
   ("timestamp", env.utcnowIso ++ "Z")]

/-- JSON string escaping for the characters that can occur in the modelled
payload values (backslash and double quote; the values here are event
names, tracking digits, status strings and ISO timestamps, which contain
no control characters). -/
def jsonEscapeChar (c : Char) : String :=
  if c = '\\' then "\\\\"
  else if c = '"' then "\\\""
  else String.singleton c

/-- Serialization of one string under `json.dumps`. -/
def jsonEscape (s : String) : String :=
  String.join (s.data.map jsonEscapeChar)

/-- python `json.dumps` on a flat string-valued dictionary, with the
default separators (services.py line 52). -/
def jsonDumps (obj : List (String × String)) : String :=
  "\x7b" ++
    String.intercalate ", "
      (obj.map (fun kv => "\"" ++ jsonEscape kv.1 ++ "\": \"" ++ jsonEscape kv.2 ++ "\"")) ++
  "\x7d"

/-- What the source does with one delivery attempt (services.py lines
74-84): a 2xx response is logged at info level as success, any other
status code is logged as a warning, a Timeout or other RequestException is
logged as an error; nothing is raised or retried. -/
inductive DeliveryOutcome where
  | logInfoSuccess (statusCode : Nat)
  | logWarningStatus (statusCode : Nat)
  | logErrorTimeout
  | logErrorRequest (msg : String)
deriving DecidableEq, Repr

/-- One delivery attempt: the request that was issued and how its outcome
was handled. -/
structure DeliveryAttempt where
  request : HttpRequest
  outcome : DeliveryOutcome
deriving DecidableEq, Repr

/-- The body of the per-webhook loop (services.py lines 55-84): build the
headers (the signature header is added exactly when `webhook.secret` is
truthy, i.e. non-empty), POST the serialized payload with a 10 second
timeout, and classify the outcome; every exception the `requests` call can
raise is caught inside the iteration. -/
def deliverToWebhook (env : Env) (event payload_json : String) (webhook : Webhook) : DeliveryAttempt :=
  let baseHeaders := [("Content-Type", "application/json"), ("X-Webhook-Event", event)]
  let headers :=
    if webhook.secret = "" then baseHeaders
    else baseHeaders ++
      [("X-Webhook-Signature", generate_webhook_signature env webhook.secret payload_json)]
  let req : HttpRequest := ⟨webhook.url, payload_json, headers, 10⟩
  let outcome :=
    match env.post req with
    | PostResult.response code =>
        if 200 ≤ code ∧ code < 300 then DeliveryOutcome.logInfoSuccess code
        else DeliveryOutcome.logWarningStatus code
    | PostResult.timeoutErr => DeliveryOutcome.logErrorTimeout
    | PostResult.requestErr m => DeliveryOutcome.logErrorRequest m
  ⟨req, outcome⟩

/-- The `for webhook in webhooks` loop of services.py lines 55-84: each
subscription is attempted in order, independently of the outcomes of the
earlier ones. -/
def notifyDeliveryLoop (env : Env) (event payload_json : String) (webhooks : List Webhook) : List DeliveryAttempt :=
  webhooks.map (deliverToWebhook env event payload_json)

/-- Result of one call to send_webhook_notification: the delivery attempts
that were made, and the exception the call raised to its caller, if any. -/
structure NotifyResult where
  attempts : List DeliveryAttempt
  raised : Option PyErr
deriving DecidableEq, Repr

/-- send_webhook_notification (services.py lines 24-84). Line 33 filters
`Webhook.objects.filter(user=shipment.user, event=event, is_active=True)`:
evaluating the keyword value `shipment.user` comes first, and `Shipment`
declares no attribute `user` (see `shipmentPyAttrNames`), so the call
raises AttributeError there; were that attribute to exist, the filter
itself names the keywords `user` and `event`, which are not fields of
`Webhook` (see `webhookPyFieldNames`), and would raise FieldError. The
remaining body (lines 39-84) is translated over the rows the filter could
at most select (the `is_active=True` conjunct, the only one of the three
that exists on the model); it is unreachable for the declared field
names. -/
def send_webhook_notification (env : Env) (webhookTable : List Webhook)
    (shipment : Shipment) (event : String) : NotifyResult :=
  match djangoGetattr shipmentPyAttrNames "user" with
  | Except.error e => ⟨[], some e⟩
  | Except.ok _ =>
    match djangoFilterFields webhookPyFieldNames ["user", "event", "is_active"] with
    | Except.error e => ⟨[], some e⟩
    | Except.ok _ =>
      let webhooks := webhookTable.filter (fun w => w.is_active)
      if webhooks.isEmpty then ⟨[], none⟩
      else
        let payload_json := jsonDumps (buildPayload env shipment event)
        ⟨notifyDeliveryLoop env event payload_json webhooks, none⟩

/-- track_status_change, the pre_save receiver (signals.py lines 7-19):
before a save it looks up the previously persisted row by primary key and
stashes its status on the instance as `_old_status`; a missing row (or an
instance without a primary key) stashes None. `dbRow` is the row the
lookup finds. -/
def track_status_change (dbRow : Option Shipment) : Option Status :=
  dbRow.map Shipment.status

/-- Result of running the post_save receiver: the events for which
send_webhook_notification was actually invoked (in order), the delivery
attempts those invocations made, and the exception the receiver raised to
the saving caller, if any. -/
structure HookResult where
  invoked : List String
  attempts : List DeliveryAttempt
  raised : Option PyErr
deriving DecidableEq, Repr

/-- handle_status_change, the post_save receiver (signals.py lines 22-44):
for a creation it calls send_webhook_notification with "shipment.created"
and returns; otherwise, when the stashed old status is set and differs
from the new one, it calls it with "shipment.status_changed" and, when the
new status is delivered, additionally with "shipment.delivered". An
exception from one call propagates and skips the rest of the receiver. -/
def handle_status_change (env : Env) (webhookTable : List Webhook)
    (inst : Shipment) (created : Bool) (oldStatus : Option Status) : HookResult :=
  if created then
    let r := send_webhook_notification env webhookTable inst "shipment.created"
    ⟨["shipment.created"], r.attempts, r.raised⟩
  else
    match oldStatus with
    | none => ⟨[], [], none⟩
    | some old =>
      if old ≠ inst.status then
        let r1 := send_webhook_notification env webhookTable inst "shipment.status_changed"
        match r1.raised with
        | some e => ⟨["shipment.status_changed"], r1.attempts, some e⟩
        | none =>
          if inst.status = Status.delivered then
            let r2 := send_webhook_notification env webhookTable inst "shipment.delivered"
            ⟨["shipment.status_changed", "shipment.delivered"], r1.attempts ++ r2.attempts, r2.raised⟩
          else ⟨["shipment.status_changed"], r1.attempts, none⟩
      else ⟨[], [], none⟩

/-- The relational store as the modelled code touches it: the shipments
table, the append-only tracking_events table, and the webhooks table. -/
structure Db where
  shipments : List Shipment
  events : List TrackingEvent
  webhooks : List Webhook
deriving DecidableEq, Repr

/-- Primary-key lookup of a shipment row. -/
def findShipmentRow (rows : List Shipment) (id : Nat) : Option Shipment :=
  rows.find? (fun r => r.id = id)

/-- Observable actions of one transition, in execution order: the write of
the shipment row, an invocation of send_webhook_notification, and the
insertion of a TrackingEvent row. -/
inductive Action where
  | shipmentWrite (id : Nat) (st : Status)
  | notifyCall (event : String)
  | eventInsert (ev : TrackingEvent)
deriving DecidableEq, Repr

/-- Result of `Shipment.save()` under the signal receivers: the store
after the row write, the saved instance, the hook outcome, and the actions
in order. -/
structure SaveResult where
  db : Db
  saved : Shipment
  hook : HookResult
  trace : List Action
deriving Repr

/-- Modelled from the spec: the signal wiring (the application
configuration that registers the signals.py receivers, not under src/) —
per spec section 4.3 the change-detection hook runs synchronously within
the save. `saveShipment` is `Shipment.save` (models.py lines 160-163,
which fills a blank tracking number from the generator) bracketed by the
pre_save receiver `track_status_change` and the post_save receiver
`handle_status_change`; a row with the same primary key is updated
(`created=False`), otherwise the row is inserted (`created=True`). The
row write commits before the post_save receiver runs, so it persists even
when the receiver raises. -/
def saveShipment (env : Env) (db : Db) (s0 : Shipment) : SaveResult :=
  let s1 := if s0.tracking_number = "" then { s0 with tracking_number := env.randomTrackingNumber } else s0
  let oldStatus := track_status_change (findShipmentRow db.shipments s1.id)
  match findShipmentRow db.shipments s1.id with
  | some _ =>
    let db2 := { db with shipments := db.shipments.map (fun r => if r.id = s1.id then s1 else r) }
    let hook := handle_status_change env db.webhooks s1 false oldStatus
    ⟨db2, s1, hook, Action.shipmentWrite s1.id s1.status :: hook.invoked.map Action.notifyCall⟩
  | none =>
    let db2 := { db with shipments := db.shipments ++ [s1] }
    let hook := handle_status_change env db.webhooks s1 true oldStatus
    ⟨db2, s1, hook, Action.shipmentWrite s1.id s1.status :: hook.invoked.map Action.notifyCall⟩

/-- The auto-generated tracking-event description of services.py line 107:
the f-string `Status changed from X to Y`. -/
def autoDescription (old new : Status) : String :=
  "Status changed from " ++ old.toDb ++ " to " ++ new.toDb

/-- Result of one call to update_shipment_status: the store afterwards,
the (mutated) shipment instance, the TrackingEvent row the call inserted
(none when an exception aborted the call first), the notification events
invoked, the delivery attempts, the exception raised to the caller if any,
the Python return value of the call, and the action trace in order. -/
structure UpdateResult where
  db : Db
  shipment : Shipment
  createdEvent : Option TrackingEvent
  invoked : List String
  attempts : List DeliveryAttempt
  raised : Option PyErr
  returned : Option (Shipment × TrackingEvent)
  trace : List Action
deriving Repr

/-- The parameter names of update_shipment_status (services.py line 87). -/
def updateShipmentStatusParams : List String :=
  ["shipment", "new_status", "description", "location"]

/-- update_shipment_status (services.py lines 87-109): remember the old
status, set the new one, save the shipment (line 101, which runs the
signal receivers), then insert a TrackingEvent for the new status whose
description falls back to the auto-generated string when the given one is
None or empty (Python `description or f"..."`), carrying the given
location and no created_by. The function body contains no return
statement, so its Python return value is None (`returned := none`). An
exception raised by the save propagates before the event insertion. -/
def update_shipment_status (env : Env) (db : Db) (shipment : Shipment)
    (new_status : Status) (description : Option String) (location : Option String) : UpdateResult :=
  let old_status := shipment.status
  let s2 := { shipment with status := new_status }
  let sv := saveShipment env db s2
  match sv.hook.raised with
  | some e =>
    ⟨sv.db, sv.saved, none, sv.hook.invoked, sv.hook.attempts, some e, none, sv.trace⟩
  | none =>
    let ev : TrackingEvent :=
      { shipment := sv.saved.id
        status := new_status
        description := some
          (match description with
           | some d => if d = "" then autoDescription old_status new_status else d
           | none => autoDescription old_status new_status)
        location := location
        created_by := none }
    ⟨{ sv.db with events := sv.db.events ++ [ev] }, sv.saved, some ev,
      sv.hook.invoked, sv.hook.attempts, none, none, sv.trace ++ [Action.eventInsert ev]⟩

/-- Decides that, in a trace, every notifyCall occurs strictly before
every eventInsert: no suffix that starts at an eventInsert contains a
notifyCall. -/
def notifiesPrecedeInserts : List Action → Bool
  | [] => true
  | Action.eventInsert _ :: rest =>
      rest.all (fun a => match a with | Action.notifyCall _ => false | _ => true)
        && notifiesPrecedeInserts rest
  | _ :: rest => notifiesPrecedeInserts rest

/-- Responses of the two status-update endpoints, by their branches in
views.py. The two 400 rejections of ShipmentStatusUpdateView.post (lines
573-581) are the InvalidTransition rejections of the spec; an uncaught
Python exception from the handler surfaces as a server error; the Arabic
message payloads are elided. -/
inductive StatusUpdateResponse where
  | notFound
  | invalidCancelled
  | invalidDeliveredTarget
  | serverError (e : PyErr)
  | success (newStatus : Status)
deriving DecidableEq, Repr

/-- Whether a response is one of the two InvalidTransition rejections. -/
def StatusUpdateResponse.isInvalidTransition : StatusUpdateResponse → Bool
  | .invalidCancelled => true
  | .invalidDeliveredTarget => true
  | _ => false

/-- ShipmentStatusUpdateView.post (views.py lines 554-598): look the
shipment up by tracking number (404 when absent), read the validated
status / description / location (the serializer defaults make
`description` fall back to the empty string and `location` to None), then
reject when the current status is cancelled (lines 573-576) or when it is
delivered and the target is not returned (lines 578-581); otherwise call
update_shipment_status with the keyword arguments shipment, new_status,
description, location and created_by=request.user (lines 584-590) — the
last keyword is not a parameter of update_shipment_status, so the binding
raises TypeError before the service body runs. -/
def ShipmentStatusUpdateView_post (env : Env) (db : Db) (tracking_number : String)
    (reqStatus : Status) (reqDescription : Option String) (reqLocation : Option String) :
    Db × StatusUpdateResponse :=
  match db.shipments.find? (fun s => s.tracking_number = tracking_number) with
  | none => (db, StatusUpdateResponse.notFound)
  | some shipment =>
    let new_status := reqStatus
    let description := reqDescription.getD ""
    let location := reqLocation
    if shipment.status = Status.cancelled then
      (db, StatusUpdateResponse.invalidCancelled)
    else if shipment.status = Status.delivered ∧ new_status ≠ Status.returned then
      (db, StatusUpdateResponse.invalidDeliveredTarget)
    else
      match bindKwargs updateShipmentStatusParams
          ["shipment", "new_status", "description", "location", "created_by"] with
      | Except.error e => (db, StatusUpdateResponse.serverError e)
      | Except.ok _ =>
        let u := update_shipment_status env db shipment new_status (some description) location
        match u.raised with
        | some e => (u.db, StatusUpdateResponse.serverError e)
        | none => (u.db, StatusUpdateResponse.success new_status)

/-- CarrierShipmentStatusUpdateView.patch (views.py lines 643-673): look
the shipment up by tracking number and assigned carrier (404 when
absent), read the validated data the same way, and call
update_shipment_status directly — the view performs no transition
validation of its own, and the created_by keyword again raises TypeError
at the call. -/
def CarrierShipmentStatusUpdateView_patch (env : Env) (db : Db) (carrierUser : Nat)
    (tracking_number : String) (reqStatus : Status) (reqDescription : Option String)
    (reqLocation : Option String) : Db × StatusUpdateResponse :=
  match db.shipments.find?
      (fun s => s.tracking_number = tracking_number ∧ s.carrier = some carrierUser) with
  | none => (db, StatusUpdateResponse.notFound)
  | some shipment =>
    let new_status := reqStatus
    let description := reqDescription.getD ""
    let location := reqLocation
    match bindKwargs updateShipmentStatusParams
        ["shipment", "new_status", "description", "location", "created_by"] with
    | Except.error e => (db, StatusUpdateResponse.serverError e)
    | Except.ok _ =>
      let u := update_shipment_status env db shipment new_status (some description) location
      match u.raised with
      | some e => (u.db, StatusUpdateResponse.serverError e)
      | none => (u.db, StatusUpdateResponse.success new_status)

/-- The authenticated caller of the company endpoints: an optional owning
company and the superuser flag. -/
structure ApiUser where
  id : Nat
  company : Option Nat
  is_superuser : Bool
deriving DecidableEq, Repr

/-- Responses of ShipmentCancelView.post, by branch (views.py lines
351-393): 404, the ownership 403, the 400 for a delivered or cancelled
shipment (lines 367-370), the 400 for a shipment already in transit
(lines 372-375), an uncaught exception, or the 200 success payload
(payload fields elided). -/
inductive CancelResponse where
  | notFound
  | forbidden
  | cancelStatusRejected
  | inTransitRejected
  | serverError (e : PyErr)
  | cancelSuccess
deriving DecidableEq, Repr

/-- ShipmentCancelView.post (views.py lines 346-393): find the shipment
by tracking number, check ownership (non-superusers must own the
shipment through their company), reject when the status is delivered or
cancelled, reject when it is picked_up, in_transit or out_for_delivery,
and otherwise set the status to cancelled, save (running the signal
receivers), and insert a TrackingEvent with status cancelled, the fixed
description and a None location. -/
def ShipmentCancelView_post (env : Env) (db : Db) (user : ApiUser)
    (tracking_number : String) : Db × CancelResponse :=
  match db.shipments.find? (fun s => s.tracking_number = tracking_number) with
  | none => (db, CancelResponse.notFound)
  | some shipment =>
    if ¬ user.is_superuser ∧ user.company ≠ some shipment.company then
      (db, CancelResponse.forbidden)
    else if shipment.status = Status.delivered ∨ shipment.status = Status.cancelled then
      (db, CancelResponse.cancelStatusRejected)
    else if shipment.status = Status.picked_up ∨ shipment.status = Status.in_transit
        ∨ shipment.status = Status.out_for_delivery then
      (db, CancelResponse.inTransitRejected)
    else
      let sv := saveShipment env db { shipment with status := Status.cancelled }
      match sv.hook.raised with
      | some e => (sv.db, CancelResponse.serverError e)
      | none =>
        let ev : TrackingEvent :=
          { shipment := sv.saved.id
            status := Status.cancelled
            description := some "Shipment cancelled by user."
            location := none
            created_by := none }
        ({ sv.db with events := sv.db.events ++ [ev] }, CancelResponse.cancelSuccess)

/-! Concrete fixtures used by the closed theorems below: a plain
environment, a tenant-1 shipment assigned to carrier 5, and an active
webhook subscription of the same tenant. -/

/-- A concrete external environment for evaluating the model. -/
def demoEnv : Env :=
  ⟨fun _ _ => "deadbeef", "2024-01-01T12:00:00", fun _ => PostResult.response 200, "0000000000"⟩

/-- A shipment of company 1, assigned to carrier 5, currently in transit. -/
def demoShipment : Shipment := ⟨1, 1, some 5, "TN1", "REF1", Status.in_transit⟩

/-- An active webhook subscription of company 1 with a secret. -/
def demoWebhook : Webhook := ⟨1, 1, "https://example.com/hook", "abc", true⟩

/-- A store holding the demo shipment and the demo subscription. -/
def demoDb : Db := ⟨[demoShipment], [], [demoWebhook]⟩

/-- A cancelled shipment of company 1 assigned to carrier 5. -/
def cancelledShipment : Shipment := ⟨2, 1, some 5, "TN2", "REF2", Status.cancelled⟩

/-- A store holding the cancelled shipment. -/
def dbCancelled : Db := ⟨[cancelledShipment], [], [demoWebhook]⟩

/-- A picked-up shipment of company 1. -/
def pickedShipment : Shipment := ⟨3, 1, some 5, "TN3", "REF3", Status.picked_up⟩

/-- A store holding the picked-up shipment. -/
def dbPicked : Db := ⟨[pickedShipment], [], [demoWebhook]⟩

/-- A non-superuser member of company 1. -/
def ownerUser : ApiUser := ⟨9, some 1, false⟩

/-! Helper lemmas shared by the claim theorems. -/

/-- Every call of send_webhook_notification evaluates `shipment.user`
(services.py line 34) on a model with no such attribute, so it makes no
delivery attempt and raises AttributeError. -/
theorem send_webhook_notification_eq (env : Env) (t : List Webhook) (s : Shipment) (e : String) :
    send_webhook_notification env t s e =
      ⟨[], some (PyErr.attributeError "object has no attribute user")⟩ := rfl

/-- Binding the keyword arguments of views.py lines 584-590 / 661-667
against the parameters of update_shipment_status raises TypeError on
created_by. -/
theorem bindKwargs_created_by :
    bindKwargs updateShipmentStatusParams
        ["shipment", "new_status", "description", "location", "created_by"] =
      Except.error (PyErr.typeError "got an unexpected keyword argument created_by") := rfl

/-- The saved instance keeps the id of the instance passed to save. -/
theorem saveShipment_saved_id (env : Env) (db : Db) (s : Shipment) :
    (saveShipment env db s).saved.id = s.id := by
  unfold saveShipment
  by_cases h : s.tracking_number = "" <;> simp only [h, if_true, if_false, reduceIte] <;>
    split <;> rfl

/-- The saved instance keeps the status of the instance passed to save. -/
theorem saveShipment_saved_status (env : Env) (db : Db) (s : Shipment) :
    (saveShipment env db s).saved.status = s.status := by
  unfold saveShipment
  by_cases h : s.tracking_number = "" <;> simp only [h, if_true, if_false, reduceIte] <;>
    split <;> rfl

/-- Saving a shipment never touches the tracking_events table. -/
theorem saveShipment_events (env : Env) (db : Db) (s : Shipment) :
    (saveShipment env db s).db.events = db.events := by
  unfold saveShipment
  by_cases h : s.tracking_number = "" <;> simp only [h, if_true, if_false, reduceIte] <;>
    split <;> rfl

/-- The save trace is the row write followed by the notify invocations of
the post_save receiver. -/
theorem saveShipment_trace (env : Env) (db : Db) (s : Shipment) :
    (saveShipment env db s).trace =
      Action.shipmentWrite s.id s.status ::
        ((saveShipment env db s).hook.invoked.map Action.notifyCall) := by
  unfold saveShipment
  by_cases h : s.tracking_number = "" <;> simp only [h, if_true, if_false, reduceIte] <;>
    split <;> rfl

/-- After a save, every row carrying the id of the saved instance carries
its status. -/
theorem saveShipment_rows_status (env : Env) (db : Db) (s : Shipment) :
    ∀ r ∈ (saveShipment env db s).db.shipments, r.id = s.id → r.status = s.status := by
  unfold saveShipment
  by_cases h : s.tracking_number = "" <;> simp only [h, if_true, if_false, reduceIte]
  all_goals
    rcases hf : findShipmentRow db.shipments s.id with _ | row <;>
      simp only [hf] <;> intro r hr hid
  · rcases List.mem_append.mp hr with hmem | hmem
    · have hf2 : db.shipments.find? (fun r => decide (r.id = s.id)) = none := hf
      have hnone := List.find?_eq_none.mp hf2
      simp only [decide_eq_true_eq] at hnone
      exact absurd hid (hnone r hmem)
    · simp only [List.mem_singleton] at hmem
      subst hmem; rfl
  · rcases List.mem_map.mp hr with ⟨r0, _, hr0⟩
    by_cases hid0 : r0.id = s.id <;> simp [hid0] at hr0 <;> subst hr0
    · rfl
    · exact absurd hid hid0
  · rcases List.mem_append.mp hr with hmem | hmem
    · have hf2 : db.shipments.find? (fun r => decide (r.id = s.id)) = none := hf
      have hnone := List.find?_eq_none.mp hf2
      simp only [decide_eq_true_eq] at hnone
      exact absurd hid (hnone r hmem)
    · simp only [List.mem_singleton] at hmem
      subst hmem; rfl
  · rcases List.mem_map.mp hr with ⟨r0, _, hr0⟩
    by_cases hid0 : r0.id = s.id <;> simp [hid0] at hr0 <;> subst hr0
    · rfl
    · exact absurd hid hid0

/-- A trace consisting of notify calls only keeps every notify before
every insert. -/
theorem npi_map_notifyCall (l : List String) :
    notifiesPrecedeInserts (l.map Action.notifyCall) = true := by
  induction l with
  | nil => rfl
  | cons a t ih => simpa [notifiesPrecedeInserts] using ih

/-- Appending one event insertion after notify calls keeps every notify
before every insert. -/
theorem npi_map_notifyCall_append_insert (l : List String) (ev : TrackingEvent) :
    notifiesPrecedeInserts (l.map Action.notifyCall ++ [Action.eventInsert ev]) = true := by
  induction l with
  | nil => simp [notifiesPrecedeInserts]
  | cons a t ih => simpa [notifiesPrecedeInserts] using ih

/-- A leading row write does not affect the notify/insert ordering
predicate. -/
theorem npi_cons_write (i : Nat) (st : Status) (tr : List Action) :
    notifiesPrecedeInserts (Action.shipmentWrite i st :: tr) = notifiesPrecedeInserts tr := by
  simp [notifiesPrecedeInserts]

/-! Claim theorems. -/

/-- C4 (code_bug evidence). The claim says notify never raises to its
caller and isolates per-subscription failures; in fact every call of
send_webhook_notification raises AttributeError to its caller — the
queryset of services.py line 33 evaluates `shipment.user`, an attribute
the Shipment model does not declare — and performs zero delivery
attempts, for every environment, webhook table, shipment and event. -/
theorem c4_notify_always_raises (env : Env) (t : List Webhook) (s : Shipment) (e : String) :
    (send_webhook_notification env t s e).raised =
        some (PyErr.attributeError "object has no attribute user")
      ∧ (send_webhook_notification env t s e).attempts = [] := by
  rw [send_webhook_notification_eq]
  exact ⟨rfl, rfl⟩

/-- C5 (code_bug evidence). The claim says notify loads exactly the
active Webhook rows of the shipment tenant; evaluated at a store that
holds an active subscription of the shipment company, the dispatcher
makes no delivery attempt and instead raises — services.py line 33
filters on `user` and `event`, which are not fields of Webhook, after
evaluating the nonexistent `shipment.user`. -/
theorem c5_webhook_filter_crashes :
    (send_webhook_notification demoEnv [demoWebhook] demoShipment "shipment.status_changed").attempts = []
      ∧ (send_webhook_notification demoEnv [demoWebhook] demoShipment
          "shipment.status_changed").raised =
        some (PyErr.attributeError "object has no attribute user") :=
  ⟨rfl, rfl⟩

/-- C3 (counterexample). The claim says a save of an existing shipment
whose status changes to delivered makes the hook invoke notify with
shipment.status_changed and additionally with shipment.delivered; at this
concrete save the first invocation raises AttributeError (services.py
lines 33-34), so shipment.delivered is not among the invoked events. -/
theorem c3_delivered_notify_unreachable :
    (handle_status_change demoEnv [demoWebhook]
        { demoShipment with status := Status.delivered } false (some Status.in_transit)).invoked =
      ["shipment.status_changed"]
    ∧ ¬ "shipment.delivered" ∈ (handle_status_change demoEnv [demoWebhook]
        { demoShipment with status := Status.delivered } false (some Status.in_transit)).invoked
    ∧ (handle_status_change demoEnv [demoWebhook]
        { demoShipment with status := Status.delivered } false (some Status.in_transit)).raised =
      some (PyErr.attributeError "object has no attribute user") :=
  ⟨rfl, by decide, rfl⟩

/-- C3 (amended). For every save processed by the post_save receiver: a
creation invokes notify exactly for shipment.created; otherwise a
previously-persisted status differing from the new one invokes notify
exactly for shipment.status_changed — the additional shipment.delivered
invocation coded at signals.py lines 43-44 is never reached, because the
status_changed notification raises first — and an equal or missing old
status invokes nothing. -/
theorem c3_amended_hook_invocations (env : Env) (table : List Webhook) (inst : Shipment)
    (created : Bool) (oldStatus : Option Status) :
    (handle_status_change env table inst created oldStatus).invoked =
      if created = true then ["shipment.created"]
      else
        match oldStatus with
        | some old => if ¬ old = inst.status then ["shipment.status_changed"] else []
        | none => [] := by
  cases created
  · cases oldStatus with
    | none => rfl
    | some old =>
      by_cases h : old = inst.status
      · simp [handle_status_change, h]
      · simp [handle_status_change, h, send_webhook_notification_eq]
  · rfl

/-- C6 (confirmed). For every delivery the loop body of services.py lines
55-84 performs: the issued request carries the X-Webhook-Signature header
exactly when the subscription secret is non-empty, and then its value is
the hex HMAC-SHA256 of the exact serialized body, keyed by that secret;
the body posted is exactly the serialized payload; the payload is a flat
object with exactly the keys event, tracking_number, new_status,
reference_number, shipment_id and timestamp; and the timestamp value ends
in Z. -/
theorem c6_delivery_request_shape (env : Env) (shipment : Shipment) (event : String) (w : Webhook) :
    ((deliverToWebhook env event (jsonDumps (buildPayload env shipment event)) w).request.headers.lookup
        "X-Webhook-Signature" =
      (if w.secret = "" then none
       else some (generate_webhook_signature env w.secret
          (jsonDumps (buildPayload env shipment event)))))
    ∧ (deliverToWebhook env event (jsonDumps (buildPayload env shipment event)) w).request.body =
        jsonDumps (buildPayload env shipment event)
    ∧ (buildPayload env shipment event).map Prod.fst =
        ["event", "tracking_number", "new_status", "reference_number", "shipment_id", "timestamp"]
    ∧ ∃ p, (buildPayload env shipment event).lookup "timestamp" = some (p ++ "Z") := by
  refine ⟨?_, rfl, rfl, ⟨env.utcnowIso, rfl⟩⟩
  by_cases h : w.secret = "" <;> simp [deliverToWebhook, h, List.lookup]

/-- C7 (counterexample). The claim says a successful transition returns
the updated shipment and the new tracking event; at a concrete successful
call the function creates the event but its Python return value is None. -/
theorem c7_counterexample :
    (update_shipment_status demoEnv demoDb demoShipment Status.in_transit none
        (some "Cairo")).returned = none
      ∧ (update_shipment_status demoEnv demoDb demoShipment Status.in_transit none
          (some "Cairo")).createdEvent.isSome = true :=
  ⟨rfl, rfl⟩

/-- C7 (amended). update_shipment_status has no return statement: for
every call, successful or not, its Python return value is None; the
updated shipment and the created tracking event are only persisted, never
returned to the caller. -/
theorem c7_returns_none (env : Env) (db : Db) (s : Shipment) (st : Status)
    (d loc : Option String) :
    (update_shipment_status env db s st d loc).returned = none := by
  unfold update_shipment_status
  rcases h : (saveShipment env db { s with status := st }).hook.raised with _ | e <;> simp [h]

/-- C10 (confirmed). In every execution of update_shipment_status, every
invocation of send_webhook_notification (triggered by the shipment save of
services.py line 101) occurs strictly before the TrackingEvent insertion
of line 104, so no notified subscriber could have observed the new
tracking event in the history. -/
theorem c10_notify_precedes_event (env : Env) (db : Db) (s : Shipment) (st : Status)
    (d loc : Option String) :
    notifiesPrecedeInserts (update_shipment_status env db s st d loc).trace = true := by
  unfold update_shipment_status
  rcases h : (saveShipment env db { s with status := st }).hook.raised with _ | e <;>
    simp only [h] <;>
    rw [saveShipment_trace]
  · simp only [List.cons_append, npi_cons_write]
    exact npi_map_notifyCall_append_insert _ _
  · simpa [npi_cons_write] using npi_map_notifyCall
      ((saveShipment env db { s with status := st }).hook.invoked)

/-- C9 (confirmed). Whenever the admin endpoint finds the shipment and its
transition validation passes, and whenever the carrier endpoint finds the
shipment (it has no validation), the call to update_shipment_status with
the created_by keyword raises TypeError before the service body runs: the
response is a server error and the store is completely unchanged — no
status write, no TrackingEvent. -/
theorem c9_created_by_typeerror (env1 env2 : Env) (db1 db2 : Db) (tn1 tn2 : String)
    (t1 t2 : Status) (d1 d2 l1 l2 : Option String) (u : Nat) (s1 s2 : Shipment)
    (h1 : db1.shipments.find? (fun x => x.tracking_number = tn1) = some s1)
    (h2 : ¬ s1.status = Status.cancelled)
    (h3 : ¬ (s1.status = Status.delivered ∧ t1 ≠ Status.returned))
    (h4 : db2.shipments.find? (fun x => x.tracking_number = tn2 ∧ x.carrier = some u) = some s2) :
    ShipmentStatusUpdateView_post env1 db1 tn1 t1 d1 l1 =
        (db1, StatusUpdateResponse.serverError
          (PyErr.typeError "got an unexpected keyword argument created_by"))
      ∧ CarrierShipmentStatusUpdateView_patch env2 db2 u tn2 t2 d2 l2 =
        (db2, StatusUpdateResponse.serverError
          (PyErr.typeError "got an unexpected keyword argument created_by")) := by
  constructor
  · unfold ShipmentStatusUpdateView_post
    rw [h1]
    simp [h2, h3, bindKwargs_created_by]
  · unfold CarrierShipmentStatusUpdateView_patch
    rw [h4]
    simp [bindKwargs_created_by]

/-- Witness for C9 at the demo store: the in-transit demo shipment is
found by both endpoints, passes the admin validation for target
delivered, and both requests end in the created_by TypeError with the
store unchanged. -/
theorem c9_witness :
    (demoDb.shipments.find? (fun x => x.tracking_number = "TN1") = some demoShipment)
    ∧ (¬ demoShipment.status = Status.cancelled)
    ∧ (¬ (demoShipment.status = Status.delivered ∧ Status.delivered ≠ Status.returned))
    ∧ (demoDb.shipments.find?
        (fun x => x.tracking_number = "TN1" ∧ x.carrier = some 5) = some demoShipment)
    ∧ (ShipmentStatusUpdateView_post demoEnv demoDb "TN1" Status.delivered none none =
        (demoDb, StatusUpdateResponse.serverError
          (PyErr.typeError "got an unexpected keyword argument created_by"))
      ∧ CarrierShipmentStatusUpdateView_patch demoEnv demoDb 5 "TN1" Status.picked_up none none =
        (demoDb, StatusUpdateResponse.serverError
          (PyErr.typeError "got an unexpected keyword argument created_by"))) :=
  ⟨rfl, by decide, by decide, rfl,
    c9_created_by_typeerror demoEnv demoEnv demoDb demoDb "TN1" "TN1" Status.delivered
      Status.picked_up none none none none 5 demoShipment demoShipment rfl (by decide)
      (by decide) rfl⟩

/-- C1 (counterexample). The claim requires every status-update endpoint
to reject with InvalidTransition whenever the current status is
cancelled; the carrier endpoint performs no transition validation, so a
cancelled shipment is not rejected there — the request falls through to
the created_by TypeError instead. -/
theorem c1_counterexample :
    (CarrierShipmentStatusUpdateView_patch demoEnv dbCancelled 5 "TN2" Status.picked_up
        none none).2 =
      StatusUpdateResponse.serverError
        (PyErr.typeError "got an unexpected keyword argument created_by")
    ∧ (CarrierShipmentStatusUpdateView_patch demoEnv dbCancelled 5 "TN2" Status.picked_up
        none none).2.isInvalidTransition = false :=
  ⟨rfl, rfl⟩

/-- C1 (amended). The admin endpoint ShipmentStatusUpdateView.post
rejects with InvalidTransition exactly when the current status is
cancelled, or is delivered with a target other than returned, and a
rejection leaves the store untouched; the carrier endpoint
CarrierShipmentStatusUpdateView.patch performs no transition validation
and never rejects with InvalidTransition. -/
theorem c1_invalid_transition_amended (env : Env) (db : Db) (tn : String) (target : Status)
    (d l : Option String) (s : Shipment)
    (hfind : db.shipments.find? (fun x => x.tracking_number = tn) = some s) :
    ((ShipmentStatusUpdateView_post env db tn target d l).2.isInvalidTransition = true
        ↔ (s.status = Status.cancelled ∨ (s.status = Status.delivered ∧ target ≠ Status.returned)))
      ∧ ((ShipmentStatusUpdateView_post env db tn target d l).2.isInvalidTransition = true →
          (ShipmentStatusUpdateView_post env db tn target d l).1 = db)
      ∧ (∀ (env2 : Env) (db2 : Db) (u : Nat) (tn2 : String) (t2 : Status) (d2 l2 : Option String),
          (CarrierShipmentStatusUpdateView_patch env2 db2 u tn2 t2 d2 l2).2.isInvalidTransition
            = false) := by
  refine ⟨?_, ?_, ?_⟩
  · unfold ShipmentStatusUpdateView_post
    rw [hfind]
    by_cases h1 : s.status = Status.cancelled
    · simp [h1, StatusUpdateResponse.isInvalidTransition]
    · by_cases h2 : s.status = Status.delivered ∧ target ≠ Status.returned
      · simp [h1, h2, StatusUpdateResponse.isInvalidTransition]
      · simp [h1, h2, bindKwargs_created_by, StatusUpdateResponse.isInvalidTransition]
  · unfold ShipmentStatusUpdateView_post
    rw [hfind]
    by_cases h1 : s.status = Status.cancelled
    · simp [h1]
    · by_cases h2 : s.status = Status.delivered ∧ target ≠ Status.returned
      · simp [h1, h2]
      · simp [h1, h2, bindKwargs_created_by, StatusUpdateResponse.isInvalidTransition]
  · intro env2 db2 u tn2 t2 d2 l2
    unfold CarrierShipmentStatusUpdateView_patch
    rcases hf : db2.shipments.find? (fun x => x.tracking_number = tn2 ∧ x.carrier = some u)
      with _ | shp
    · rw [hf]
      rfl
    · rw [hf]
      simp [bindKwargs_created_by, StatusUpdateResponse.isInvalidTransition]

/-- Witness for C1 at the demo store holding a cancelled shipment: the
admin endpoint rejects it with InvalidTransition (the biconditional holds
and the store is unchanged), and the carrier endpoint never produces an
InvalidTransition rejection. -/
theorem c1_witness :
    (dbCancelled.shipments.find? (fun x => x.tracking_number = "TN2") = some cancelledShipment)
    ∧ (((ShipmentStatusUpdateView_post demoEnv dbCancelled "TN2" Status.picked_up none
          none).2.isInvalidTransition = true
        ↔ (cancelledShipment.status = Status.cancelled
            ∨ (cancelledShipment.status = Status.delivered
                ∧ Status.picked_up ≠ Status.returned)))
      ∧ ((ShipmentStatusUpdateView_post demoEnv dbCancelled "TN2" Status.picked_up none
            none).2.isInvalidTransition = true →
          (ShipmentStatusUpdateView_post demoEnv dbCancelled "TN2" Status.picked_up none
            none).1 = dbCancelled)
      ∧ (∀ (env2 : Env) (db2 : Db) (u : Nat) (tn2 : String) (t2 : Status) (d2 l2 : Option String),
          (CarrierShipmentStatusUpdateView_patch env2 db2 u tn2 t2 d2 l2).2.isInvalidTransition
            = false)) :=
  ⟨rfl, c1_invalid_transition_amended demoEnv dbCancelled "TN2" Status.picked_up none none
    cancelledShipment rfl⟩

/-- C8 (counterexample). The claim says cancellation succeeds while the
status is created or picked_up; for a picked_up shipment owned by the
caller the view rejects the cancellation (views.py lines 372-375) and
leaves the store unchanged. -/
theorem c8_counterexample :
    (ShipmentCancelView_post demoEnv dbPicked ownerUser "TN3").2 =
        CancelResponse.inTransitRejected
      ∧ (ShipmentCancelView_post demoEnv dbPicked ownerUser "TN3").1 = dbPicked :=
  ⟨rfl, rfl⟩

/-- C8 (amended). For every shipment the cancel view finds and whose
ownership check passes, the request is rejected by the status policy
exactly when the current status is neither created nor returned
(delivered and cancelled by the first check, picked_up, in_transit and
out_for_delivery by the in-transit check), and a rejection leaves the
store untouched; only created and returned shipments reach the
cancellation write. -/
theorem c8_cancel_policy_amended (env : Env) (db : Db) (user : ApiUser) (tn : String)
    (s : Shipment)
    (hfind : db.shipments.find? (fun x => x.tracking_number = tn) = some s)
    (hown : user.is_superuser = true ∨ user.company = some s.company) :
    (((ShipmentCancelView_post env db user tn).2 = CancelResponse.cancelStatusRejected
        ∨ (ShipmentCancelView_post env db user tn).2 = CancelResponse.inTransitRejected)
      ↔ ¬ (s.status = Status.created ∨ s.status = Status.returned))
    ∧ (((ShipmentCancelView_post env db user tn).2 = CancelResponse.cancelStatusRejected
        ∨ (ShipmentCancelView_post env db user tn).2 = CancelResponse.inTransitRejected) →
        (ShipmentCancelView_post env db user tn).1 = db) := by
  have hno : ¬ (user.is_superuser = false ∧ ¬ user.company = some s.company) := by
    rcases hown with h | h <;> simp [h]
  unfold ShipmentCancelView_post
  rw [hfind]
  rcases hs : s.status
  case created | returned =>
    rcases hr : (saveShipment env db { s with status := Status.cancelled }).hook.raised
        with _ | e <;> simp [hs, hno, hr]
  all_goals simp [hs, hno]

/-- Witness for C8 at the demo store: the in-transit demo shipment is
found and owned, the view rejects its cancellation, and the store is
unchanged. -/
theorem c8_witness :
    (demoDb.shipments.find? (fun x => x.tracking_number = "TN1") = some demoShipment)
    ∧ (ownerUser.is_superuser = true ∨ ownerUser.company = some demoShipment.company)
    ∧ ((((ShipmentCancelView_post demoEnv demoDb ownerUser "TN1").2 =
            CancelResponse.cancelStatusRejected
          ∨ (ShipmentCancelView_post demoEnv demoDb ownerUser "TN1").2 =
            CancelResponse.inTransitRejected)
        ↔ ¬ (demoShipment.status = Status.created ∨ demoShipment.status = Status.returned))
      ∧ (((ShipmentCancelView_post demoEnv demoDb ownerUser "TN1").2 =
            CancelResponse.cancelStatusRejected
          ∨ (ShipmentCancelView_post demoEnv demoDb ownerUser "TN1").2 =
            CancelResponse.inTransitRejected) →
          (ShipmentCancelView_post demoEnv demoDb ownerUser "TN1").1 = demoDb)) :=
  ⟨rfl, Or.inr rfl,
    c8_cancel_policy_amended demoEnv demoDb ownerUser "TN1" demoShipment rfl (Or.inr rfl)⟩

/-- C2 (counterexample). The claim says the TrackingEvent of a successful
transition carries the given actor; at a concrete successful call the
created event records no actor at all (created_by is None), because
update_shipment_status accepts no actor and never sets created_by —
`some none` differs from `some (some a)` for every actor `a`. -/
theorem c2_counterexample :
    (update_shipment_status demoEnv demoDb demoShipment Status.in_transit none none).raised = none
      ∧ (update_shipment_status demoEnv demoDb demoShipment Status.in_transit
          none none).createdEvent.map TrackingEvent.created_by = some none :=
  ⟨rfl, rfl⟩

/-- C2 (amended). For every call of update_shipment_status that completes
without raising: the shipment instance carries the target status, every
persisted row with its id carries the target status, exactly one
TrackingEvent is appended whose status is the target, whose description
is the supplied one and falls back to the auto-generated
"Status changed from X to Y" string when the supplied one is None or
empty, which carries the given location and no actor (created_by is
None), and whose insertion comes strictly after the shipment status
write in the trace. -/
theorem c2_transition_effects_amended (env : Env) (db : Db) (s : Shipment) (target : Status)
    (d loc : Option String)
    (hok : (update_shipment_status env db s target d loc).raised = none) :
    (update_shipment_status env db s target d loc).shipment.status = target
    ∧ (∀ r ∈ (update_shipment_status env db s target d loc).db.shipments,
        r.id = s.id → r.status = target)
    ∧ ∃ ev : TrackingEvent,
        (update_shipment_status env db s target d loc).createdEvent = some ev
        ∧ (update_shipment_status env db s target d loc).db.events = db.events ++ [ev]
        ∧ ev.status = target
        ∧ (d = none → ev.description = some (autoDescription s.status target))
        ∧ (d = some "" → ev.description = some (autoDescription s.status target))
        ∧ (∀ x : String, d = some x → ¬ x = "" → ev.description = some x)
        ∧ ev.location = loc
        ∧ ev.created_by = none
        ∧ ∃ mid, (update_shipment_status env db s target d loc).trace =
            Action.shipmentWrite s.id target :: (mid ++ [Action.eventInsert ev]) := by
  unfold update_shipment_status at hok ⊢
  rcases hr : (saveShipment env db { s with status := target }).hook.raised with _ | e
  · simp only [hr]
    refine ⟨saveShipment_saved_status env db { s with status := target }, ?_, ?_⟩
    · intro r hmem hid
      exact saveShipment_rows_status env db { s with status := target } r hmem hid
    · refine ⟨_, rfl, ?_, rfl, ?_, ?_, ?_, rfl, rfl, ?_⟩
      · rw [saveShipment_events]
      · intro hd
        subst hd
        rfl
      · intro hd
        subst hd
        rfl
      · intro x hd hx
        subst hd
        simp [hx]
      · refine ⟨(saveShipment env db { s with status := target }).hook.invoked.map
          Action.notifyCall, ?_⟩
        rw [saveShipment_trace]
        rfl
  · simp [hr] at hok
/-- Witness for C2 at a concrete successful call (a save that does not
trigger a notification, so nothing raises): the instance and the
persisted row carry the target status and exactly one tracking event is
appended with the expected fields. -/
theorem c2_witness :
    ((update_shipment_status demoEnv demoDb demoShipment Status.in_transit none
        (some "Cairo")).raised = none)
    ∧ ((update_shipment_status demoEnv demoDb demoShipment Status.in_transit none
          (some "Cairo")).shipment.status = Status.in_transit
      ∧ (∀ r ∈ (update_shipment_status demoEnv demoDb demoShipment Status.in_transit none
            (some "Cairo")).db.shipments, r.id = demoShipment.id → r.status = Status.in_transit)
      ∧ ∃ ev : TrackingEvent,
          (update_shipment_status demoEnv demoDb demoShipment Status.in_transit none
            (some "Cairo")).createdEvent = some ev
          ∧ (update_shipment_status demoEnv demoDb demoShipment Status.in_transit none
              (some "Cairo")).db.events = demoDb.events ++ [ev]
          ∧ ev.status = Status.in_transit
          ∧ ((none : Option String) = none →
              ev.description = some (autoDescription demoShipment.status Status.in_transit))
          ∧ ((none : Option String) = some "" →
              ev.description = some (autoDescription demoShipment.status Status.in_transit))
          ∧ (∀ x : String, (none : Option String) = some x → ¬ x = "" → ev.description = some x)
          ∧ ev.location = some "Cairo"
          ∧ ev.created_by = none
          ∧ ∃ mid, (update_shipment_status demoEnv demoDb demoShipment Status.in_transit none
              (some "Cairo")).trace =
                Action.shipmentWrite demoShipment.id Status.in_transit ::
                  (mid ++ [Action.eventInsert ev])) :=
  ⟨rfl, c2_transition_effects_amended demoEnv demoDb demoShipment Status.in_transit none
    (some "Cairo") rfl⟩

end ShipSpec
